import Mathlib

/-!
Verification of the response-construction core of the `skill-time` voice skill
(`src/__init__.py`, class `TimeSkill`).

Modelling conventions:
* an utterance is represented by its whitespace tokenization, a `List String`;
  the empty utterance is `[]`;
* the `Response` builder, the duration/location extractors and the display-time
  formatter live in the repository's `skill` package, which is not under `src/`;
  the definitions for those parts are modelled from the specification and say so
  in their doc comments;
* external collaborators (geolocation lookup, clocks) are oracle fields of an
  `Env` record, so theorems quantify over every possible behaviour of those
  collaborators;
* handler methods of `TimeSkill` are embedded as functions from the oracle
  environment and the request utterance to the list of externally visible
  effects they emit (spoken dialogs, display updates), in order.
-/

namespace TimeSkill

/-- Platform identifier of the Mark I enclosure (`MARK_I` in `src/__init__.py`). -/
def MARK_ONE : String := "mycroft_mark_1"

/-- Platform identifier of the Mark II enclosure (`MARK_II` in `src/__init__.py`). -/
def MARK_TWO : String := "mycroft_mark_2"

/-- Modelled from the spec: resolved place data returned by the Geolocation
Resolver — display name parts and a timezone identifier (spec §3, §4.3). -/
structure Geolocation where
  city : String
  region : Option String
  country : Option String
  timezone : String
  deriving DecidableEq, Repr

/-- Modelled from the spec: microseconds per duration unit of the Duration
Extractor's unit vocabulary (seconds/minutes/hours/days/weeks, spec §3, §4.1). -/
def unitMicros : String → Option Nat
  | "second" => some 1000000
  | "seconds" => some 1000000
  | "minute" => some 60000000
  | "minutes" => some 60000000
  | "hour" => some 3600000000
  | "hours" => some 3600000000
  | "day" => some 86400000000
  | "days" => some 86400000000
  | "week" => some 604800000000
  | "weeks" => some 604800000000
  | _ => none

/-- Modelled from the spec: the numeral vocabulary of the Duration Extractor
(spec §4.1), as decimal digit strings — the token's value, or `none` when the
token is not a numeral. -/
def tokenToNat? (s : String) : Option Nat :=
  if s.data ≠ [] ∧ s.data.all Char.isDigit then
    some (s.data.foldl (fun n c => n * 10 + (c.toNat - 48)) 0)
  else none

/-- Modelled from the spec: the Duration Extractor (spec §4.1), which lives in
the repository's `skill` package (not under `src/`).  It scans the utterance for
relative-offset surface patterns — modelled here as the spec's example form
"in `<numeral>` `<unit>`" ("in 5 hours") — removes each matched span from the
token list, and returns the remainder together with the cumulative duration in
microseconds.  No match leaves the utterance unchanged with duration zero. -/
def extractDurationTokens : List String → List String × Nat
  | [] => ([], 0)
  | t :: rest =>
    if t = "in" then
      match rest with
      | n :: u :: rest2 =>
        match tokenToNat? n, unitMicros u with
        | some k, some m =>
          let r := extractDurationTokens rest2
          (r.1, k * m + r.2)
        | _, _ =>
          let r := extractDurationTokens (n :: u :: rest2)
          (t :: r.1, r.2)
      | [n] =>
        let r := extractDurationTokens [n]
        (t :: r.1, r.2)
      | [] => ([t], 0)
    else
      let r := extractDurationTokens rest
      (t :: r.1, r.2)

/-- Modelled from the spec: the Location Extractor (spec §4.2), which lives in
the repository's `skill` package (not under `src/`) as the `location.rx`
pattern.  It matches the construct "in/at `<place>`" against the offset-stripped
token list and returns the tokens of the captured place, or `none` when no
location phrase is present.  The capture requires at least one token after the
marker word. -/
def extractLocationTokens : List String → Option (List String)
  | [] => none
  | t :: rest =>
    if (t = "in" ∨ t = "at") ∧ rest ≠ [] then some rest
    else extractLocationTokens rest

/-- Rendered text of a captured token sequence (tokens joined by blanks). -/
def joinTokens (l : List String) : String := String.intercalate " " l

/-- Modelled from the spec: the Time Computer's `compute` operation (spec §4.4)
adds a duration to a base date-time.  Date-times on the response path are
points on the time line counted in microseconds; durations are non-negative
microsecond counts. -/
def compute (base : Nat) (duration : Nat) : Nat := base + duration

/-- Oracle environment for the external collaborators of the response core:
geolocation lookup (`none` models the `LocationNotFound` outcome, spec §4.3)
and the clocks giving "now" locally and in a named timezone (spec §4.4). -/
structure Env where
  resolveGeo : List String → Option Geolocation
  nowLocal : Nat
  nowAt : String → Nat

/-- Modelled from the spec: the `Response` object of the `skill` package (spec
§3) — computed target date-time (unset when extraction produced none), dialog
template key, substitution data, the raw requested location (recorded before
resolution is attempted) and the resolved geolocation when available. -/
structure Response where
  date_time : Option Nat
  dialog_name : Option String
  dialog_data : List (String × String)
  requested_location : Option (List String)
  geolocation : Option Geolocation
  deriving DecidableEq, Repr

/-- State of a freshly constructed `Response` before any build step ran. -/
def Response.fresh : Response :=
  { date_time := none, dialog_name := none, dialog_data := [],
    requested_location := none, geolocation := none }

/-- Simple "H:MM"-style rendering of a time-line point, used for the `time`
dialog substitution (spec §4.6). -/
def formatTimeOfDay (t : Nat) : String :=
  let minute := t / 60000000 % 60
  toString (t / 3600000000 % 24) ++ ":" ++
    (if minute < 10 then "0" else "") ++ toString minute

/-- Outcome of a `Response` build: either a completed response, or the
`LocationNotFound` exception escaping while the partially filled response (with
`requested_location` already recorded) remains accessible to the caller. -/
inductive BuildResult where
  | ok : Response → BuildResult
  | locationNotFound : Response → BuildResult
  deriving DecidableEq, Repr

/-- The response object of a build outcome, completed or partially filled
(in Python the caller keeps its reference to the `Response` it constructed,
whether or not the build raised). -/
def BuildResult.response : BuildResult → Response
  | BuildResult.ok r => r
  | BuildResult.locationNotFound r => r

/-- Modelled from the spec: `Response.build_current_time_response` (spec §4.5
Entry A; the `Response` class is in the `skill` package, not under `src/`).
The Location Extractor runs directly on the full utterance; a present location
is recorded, then resolved (propagating `LocationNotFound`), and `now` is taken
in the resolved timezone, else locally; the dialog key pairs the current-time
template with its location-qualified variant. -/
def build_current_time_response (env : Env) (utterance : List String) : BuildResult :=
  match extractLocationTokens utterance with
  | none =>
    BuildResult.ok
      { date_time := some env.nowLocal, dialog_name := some "current-time",
        dialog_data := [("time", formatTimeOfDay env.nowLocal)],
        requested_location := none, geolocation := none }
  | some loc =>
    match env.resolveGeo loc with
    | none =>
      BuildResult.locationNotFound { Response.fresh with requested_location := some loc }
    | some geo =>
      let t := env.nowAt geo.timezone
      BuildResult.ok
        { date_time := some t, dialog_name := some "current-time-location",
          dialog_data := [("time", formatTimeOfDay t), ("location", geo.city)],
          requested_location := some loc, geolocation := some geo }

/-- Modelled from the spec: `Response.build_future_time_response` (spec §4.5
Entry B; the `Response` class is in the `skill` package, not under `src/`).
The Duration Extractor runs first; the Location Extractor runs on the
offset-stripped remainder; a present location is recorded then resolved
(propagating `LocationNotFound`) and the base is `now` in its timezone, else
the local `now`; the duration is added with `compute`; a zero duration leaves
`date_time` unset as the fallback signal and is not an error. -/
def build_future_time_response (env : Env) (utterance : List String) : BuildResult :=
  let ex := extractDurationTokens utterance
  match extractLocationTokens ex.1 with
  | none =>
    if ex.2 = 0 then
      BuildResult.ok Response.fresh
    else
      let t := compute env.nowLocal ex.2
      BuildResult.ok
        { date_time := some t, dialog_name := some "future-time",
          dialog_data := [("time", formatTimeOfDay t)],
          requested_location := none, geolocation := none }
  | some loc =>
    match env.resolveGeo loc with
    | none =>
      BuildResult.locationNotFound { Response.fresh with requested_location := some loc }
    | some geo =>
      if ex.2 = 0 then
        BuildResult.ok
          { Response.fresh with requested_location := some loc, geolocation := some geo }
      else
        let t := compute (env.nowAt geo.timezone) ex.2
        BuildResult.ok
          { date_time := some t, dialog_name := some "future-time-location",
            dialog_data := [("time", formatTimeOfDay t), ("location", geo.city)],
            requested_location := some loc, geolocation := some geo }

/-- Externally visible effects emitted by the `TimeSkill` handlers
(`src/__init__.py`): a spoken dialog (`speak_dialog` with template key,
substitutions and optional TTS cache key), the display update performed by
`_display_time`, the post-speech display clearing of `_respond`, and the call
into `_cache_current_time_tts` made at the end of `_handle_current_time`. -/
inductive Effect where
  | speak (dialog : Option String) (data : List (String × String))
      (cacheKey : Option String) : Effect
  | displayTime (dt : Option Nat) : Effect
  | clearMarkOneDisplay : Effect
  | releaseGui : Effect
  | scheduleCacheRefresh : Effect
  deriving DecidableEq, Repr

/-- Device context of the running skill: the skill identifier (used to form the
TTS cache key in `initialize`), the platform string from the enclosure config,
and whether a GUI is connected. -/
structure Ctx where
  env : Env
  skillId : String
  platform : Option String
  guiConnected : Bool

/-- Stable TTS cache key `f"{self.skill_id}.current-time"` set in
`TimeSkill.initialize` (src/__init__.py line 92). -/
def currentTimeCacheKey (skillId : String) : String := skillId ++ ".current-time"

/-- Truthiness of the recorded requested location as Python evaluates
`not response.requested_location` (src/__init__.py lines 202-206): absent or
empty is falsy. -/
def truthyLocation : Option (List String) → Bool
  | none => false
  | some l => !l.isEmpty

/-- Embeds `TimeSkill._respond` (src/__init__.py lines 219-232): display the
time, speak the dialog with the given cache key, then clear the Mark I
faceplate or release the GUI. -/
def respond (ctx : Ctx) (r : Response) (cacheKey : Option String) : List Effect :=
  [Effect.displayTime r.date_time,
   Effect.speak r.dialog_name r.dialog_data cacheKey] ++
  (if ctx.platform = some MARK_ONE then [Effect.clearMarkOneDisplay]
   else if ctx.guiConnected then [Effect.releaseGui] else [])

/-- Embeds `TimeSkill._handle_location_not_found` (src/__init__.py lines
210-217): speak the `location-not-found` dialog with the raw requested
location text as the `location` substitution.  Python passes the stored
`requested_location` value itself; the rendered text of the recorded tokens is
used here, the empty string standing for an absent value. -/
def handle_location_not_found (r : Response) : List Effect :=
  [Effect.speak (some "location-not-found")
    [("location", joinTokens (r.requested_location.getD []))] none]

/-- Embeds `TimeSkill._handle_current_time` (src/__init__.py lines 186-208):
build the current-time response; if `LocationNotFound` escapes, speak the
location-not-found dialog; otherwise speak the response with the stable cache
key exactly when no location was requested, then refresh the TTS cache. -/
def handle_current_time (ctx : Ctx) (utterance : List String) : List Effect :=
  match build_current_time_response ctx.env utterance with
  | BuildResult.locationNotFound r => handle_location_not_found r
  | BuildResult.ok r =>
    let cacheKey :=
      if !truthyLocation r.requested_location then some (currentTimeCacheKey ctx.skillId)
      else none
    respond ctx r cacheKey ++ [Effect.scheduleCacheRefresh]

/-- Embeds `TimeSkill._handle_future_time` (src/__init__.py lines 166-184):
build the future-time response; if `LocationNotFound` escapes, speak the
location-not-found dialog; if the built response has no `date_time`, fall back
to `_handle_current_time` on the same request; otherwise speak the response
(with no cache key). -/
def handle_future_time (ctx : Ctx) (utterance : List String) : List Effect :=
  match build_future_time_response ctx.env utterance with
  | BuildResult.locationNotFound r => handle_location_not_found r
  | BuildResult.ok r =>
    match r.date_time with
    | none => handle_current_time ctx utterance
    | some _ => respond ctx r none

/-- TTS cache keys carried by the spoken dialogs of an effect list, in order. -/
def speakCacheKeys (effects : List Effect) : List (Option String) :=
  effects.filterMap fun e =>
    match e with
    | Effect.speak _ _ k => some k
    | _ => none

/-- Dialog template keys of the spoken dialogs of an effect list, in order. -/
def spokenDialogs (effects : List Effect) : List (Option String) :=
  effects.filterMap fun e =>
    match e with
    | Effect.speak d _ _ => some d
    | _ => none

/-- A naive Python `datetime.datetime` value as used by
`_cache_current_time_tts` (src/__init__.py lines 362-369): proleptic Gregorian
calendar fields, no timezone. -/
structure PyDateTime where
  year : Nat
  month : Nat
  day : Nat
  hour : Nat
  minute : Nat
  second : Nat
  microsecond : Nat
  deriving DecidableEq, Repr

/-- Gregorian leap-year rule used by Python's `datetime` module. -/
def isLeapYear (y : Nat) : Bool := (y % 4 == 0 && y % 100 != 0) || y % 400 == 0

/-- Length of a month in the proleptic Gregorian calendar. -/
def daysInMonth (y m : Nat) : Nat :=
  if m = 2 then (if isLeapYear y then 29 else 28)
  else if m = 4 ∨ m = 6 ∨ m = 9 ∨ m = 11 then 30
  else 31

/-- Field ranges of a well-formed Python `datetime` value. -/
def PyDateTime.Valid (t : PyDateTime) : Prop :=
  1 ≤ t.year ∧ 1 ≤ t.month ∧ t.month ≤ 12 ∧ 1 ≤ t.day ∧
    t.day ≤ daysInMonth t.year t.month ∧
    t.hour < 24 ∧ t.minute < 60 ∧ t.second < 60 ∧ t.microsecond < 1000000

/-- Days in the years strictly before year `y` (Python's
`datetime.toordinal` day count starts at day 1 = January 1 of year 1). -/
def daysBeforeYear (y : Nat) : Nat :=
  365 * (y - 1) + (y - 1) / 4 - (y - 1) / 100 + (y - 1) / 400

/-- Cumulative days before month `m` in a common (non-leap) year. -/
def daysBeforeMonthCommon : Nat → Nat
  | 1 => 0
  | 2 => 31
  | 3 => 59
  | 4 => 90
  | 5 => 120
  | 6 => 151
  | 7 => 181
  | 8 => 212
  | 9 => 243
  | 10 => 273
  | 11 => 304
  | 12 => 334
  | _ => 365

/-- Cumulative days before month `m` of year `y`. -/
def daysBeforeMonth (y m : Nat) : Nat :=
  daysBeforeMonthCommon m + (if 3 ≤ m ∧ isLeapYear y then 1 else 0)

/-- Days before the calendar date of `t` (so January 1 of year 1 maps to 0). -/
def PyDateTime.toDays (t : PyDateTime) : Nat :=
  daysBeforeYear t.year + daysBeforeMonth t.year t.month + (t.day - 1)

/-- Microseconds elapsed from the calendar epoch to `t`: the time-line view of
a naive `datetime` value. -/
def PyDateTime.toMicros (t : PyDateTime) : Nat :=
  (((t.toDays * 24 + t.hour) * 60 + t.minute) * 60 + t.second) * 1000000 +
    t.microsecond

/-- The constructor call
`datetime(year=now.year, month=now.month, day=now.day, hour=now.hour,
minute=now.minute)` of `_cache_current_time_tts` (src/__init__.py lines
363-369): copy the fields down to the minute, zeroing seconds and smaller. -/
def PyDateTime.truncateToMinute (t : PyDateTime) : PyDateTime :=
  { year := t.year, month := t.month, day := t.day, hour := t.hour,
    minute := t.minute, second := 0, microsecond := 0 }

/-- Semantics of Python's `datetime + timedelta(minutes=1)` on a value whose
seconds and microseconds are zero: advance the minute, rolling over hour, day,
month and year at their calendar boundaries. -/
def PyDateTime.addOneMinute (t : PyDateTime) : PyDateTime :=
  if t.minute + 1 < 60 then { t with minute := t.minute + 1 }
  else if t.hour + 1 < 24 then { t with minute := 0, hour := t.hour + 1 }
  else if t.day + 1 ≤ daysInMonth t.year t.month then
    { t with minute := 0, hour := 0, day := t.day + 1 }
  else if t.month + 1 ≤ 12 then
    { t with minute := 0, hour := 0, day := 1, month := t.month + 1 }
  else
    { t with minute := 0, hour := 0, day := 1, month := 1, year := t.year + 1 }

/-- Moment at which `_cache_current_time_tts` schedules its next invocation:
`datetime(...fields down to the minute...) + timedelta(minutes=1)`
(src/__init__.py lines 362-369). -/
def nextMinute (now : PyDateTime) : PyDateTime := now.truncateToMinute.addOneMinute

/-- Pending scheduled events of the host skill scheduler, as (name, time in
microseconds on the time line) pairs. -/
abbrev EventSchedule : Type := List (String × Nat)

/-- Embeds `self.cancel_scheduled_event(name)`: drop the pending events
carrying the given name. -/
def cancelScheduledEvent (sched : EventSchedule) (name : String) : EventSchedule :=
  sched.filter fun e => !(e.1 == name)

/-- Embeds `self.schedule_event(callback, when, name)`: add a pending event. -/
def scheduleEvent (sched : EventSchedule) (name : String) (whenAt : Nat) : EventSchedule :=
  sched ++ [(name, whenAt)]

/-- Observable outcome of one `_cache_current_time_tts` invocation: the
resulting event schedule, the dialog written to the TTS cache (template key,
substitutions, cache key) when caching succeeded, whether an exception was
logged, and whether any exception escaped to the host. -/
structure CacheTtsResult where
  schedule : EventSchedule
  cachedDialog : Option (Option String × List (String × String) × String)
  loggedError : Bool
  raised : Bool
  deriving DecidableEq, Repr

/-- Embeds `TimeSkill._cache_current_time_tts` (src/__init__.py lines 357-384).
Inside one `try` block it cancels the pending `CacheTTS` event, schedules a new
one at the next minute boundary, builds the current-time response for the
empty utterance and writes its dialog to the TTS cache under the stable key;
any exception in the body is caught and logged.  The oracle `cacheFails` makes
the response building/caching step raise, modelling transient failures there;
`build_current_time_response` raising `LocationNotFound` is likewise caught by
the blanket `except`. -/
def cache_current_time_tts (env : Env) (skillId : String) (sched : EventSchedule)
    (now : PyDateTime) (cacheFails : Bool) : CacheTtsResult :=
  let s1 := cancelScheduledEvent sched "CacheTTS"
  let s2 := scheduleEvent s1 "CacheTTS" (nextMinute now).toMicros
  if cacheFails then
    { schedule := s2, cachedDialog := none, loggedError := true, raised := false }
  else
    match build_current_time_response env [] with
    | BuildResult.locationNotFound _ =>
      { schedule := s2, cachedDialog := none, loggedError := true, raised := false }
    | BuildResult.ok r =>
      { schedule := s2,
        cachedDialog := some (r.dialog_name, r.dialog_data, currentTimeCacheKey skillId),
        loggedError := false, raised := false }

/-- Semantics of Python's `str.split(sep)` for a one-character separator,
on the character list of the string: split at every occurrence of `sep`,
keeping empty parts, always yielding at least one part. -/
def pySplit (sep : Char) : List Char → List (List Char)
  | [] => [[]]
  | c :: rest =>
    match pySplit sep rest with
    | [] => [[]]
    | p :: ps => if c = sep then [] :: p :: ps else (c :: p) :: ps

/-- GUI page shown by `_display_gui`: the Mark II page with destructured hour
and minute and an optional location caption, or the scalable page with the
whole time string. -/
inductive GuiPage where
  | markTwo (hour minute : List Char) (location : Option String) : GuiPage
  | scalable (timeString : List Char) : GuiPage
  deriving DecidableEq, Repr

/-- Embeds `TimeSkill._display_gui` (src/__init__.py lines 265-282) given the
formatted display time string (as its character list), the response's resolved
geolocation and its display-location text.  On the Mark II the time string is
split at ":" and destructured as `hour, minute = display_time.split(":")` —
any split arity other than two raises `ValueError`, modelled as `none`; the
`location` field is set only when a geolocation is present.  Other GUI
platforms show the scalable page with the whole string. -/
def display_gui (platform : Option String) (displayTime : List Char)
    (geo : Option Geolocation) (displayLocation : String) : Option GuiPage :=
  if platform = some MARK_TWO then
    match pySplit ':' displayTime with
    | [h, m] => some (GuiPage.markTwo h m (geo.map fun _ => displayLocation))
    | _ => none
  else
    some (GuiPage.scalable displayTime)

/-- Outcome of one `display_idle` invocation: the new value of
`self.displayed_time` and the list of strings drawn to the Mark I faceplate
(`_display_mark_i` calls), in order. -/
structure IdleDisplayResult where
  displayed_time : Option String
  drawnStrings : List String
  deriving DecidableEq, Repr

/-- Embeds `TimeSkill.display_idle` (src/__init__.py lines 328-336), given the
idle-display setting, whether the faceplate is currently idle, the freshly
formatted time string and the previously displayed string
(`self.displayed_time`, `None` before the first draw): the faceplate is
rewritten, and the stored string updated, only when the setting is on, the
display is idle and the fresh string differs from the stored one. -/
def display_idle (displayWhenIdle displayIsIdle : Bool) (displayTime : String)
    (displayedTime : Option String) : IdleDisplayResult :=
  if displayWhenIdle && displayIsIdle then
    if some displayTime ≠ displayedTime then
      { displayed_time := some displayTime, drawnStrings := [displayTime] }
    else
      { displayed_time := displayedTime, drawnStrings := [] }
  else
    { displayed_time := displayedTime, drawnStrings := [] }

/-- Concrete oracle environment in which no location ever resolves and both
clocks read the epoch. -/
def envNoGeo : Env :=
  { resolveGeo := fun _ => none, nowLocal := 0, nowAt := fun _ => 0 }

/-- Concrete oracle environment in which every location resolves to Tokyo. -/
def envAllGeo : Env :=
  { resolveGeo := fun _ =>
      some { city := "Tokyo", region := none, country := none,
             timezone := "Asia/Tokyo" },
    nowLocal := 0, nowAt := fun _ => 99 }

/-- Concrete device context over `envNoGeo`. -/
def ctxNoGeo : Ctx :=
  { env := envNoGeo, skillId := "time.mycroftai", platform := none,
    guiConnected := false }

/-! Helper lemmas on the extractors. -/

/-- A captured location is never the empty token sequence. -/
theorem extractLocationTokens_ne_nil {ts l : List String}
    (h : extractLocationTokens ts = some l) : l ≠ [] := by
  induction ts with
  | nil => simp [extractLocationTokens] at h
  | cons t rest ih =>
    rw [extractLocationTokens] at h
    split at h
    · rename_i hc
      cases h
      exact hc.2
    · exact ih h

/-- Unfolding of the duration scan at a token other than "in": the token is
kept and the scan continues. -/
theorem extractDurationTokens_cons {t : String} {rest : List String} (ht : t ≠ "in") :
    extractDurationTokens (t :: rest) =
      (t :: (extractDurationTokens rest).1, (extractDurationTokens rest).2) := by
  rw [extractDurationTokens.eq_def]
  cases rest <;> simp [ht]

/-- Unfolding of the duration scan at a matching "in `<numeral>` `<unit>`"
window: the three tokens are removed and the parsed amount is accumulated. -/
theorem extractDurationTokens_window {n u : String} {rest2 : List String}
    {k m : Nat} (hn : tokenToNat? n = some k) (hu : unitMicros u = some m) :
    extractDurationTokens ("in" :: n :: u :: rest2) =
      ((extractDurationTokens rest2).1, k * m + (extractDurationTokens rest2).2) := by
  rw [extractDurationTokens.eq_def]
  simp [hn, hu]

/-- Unfolding of the duration scan at an "in" whose following token is not a
numeral: the "in" is kept and the scan continues behind it. -/
theorem extractDurationTokens_in_no_numeral {n u : String} {rest2 : List String}
    (hn : tokenToNat? n = none) :
    extractDurationTokens ("in" :: n :: u :: rest2) =
      ("in" :: (extractDurationTokens (n :: u :: rest2)).1,
        (extractDurationTokens (n :: u :: rest2)).2) := by
  rw [extractDurationTokens.eq_def]
  simp [hn]

/-- Scanning a token list containing no "in" finds no duration phrase. -/
theorem extractDurationTokens_no_in {ts : List String} (h : "in" ∉ ts) :
    extractDurationTokens ts = (ts, 0) := by
  induction ts with
  | nil => rfl
  | cons t rest ih =>
    have ht : t ≠ "in" := fun he => h (he ▸ List.mem_cons_self t rest)
    have hrest : "in" ∉ rest := fun hm => h (List.mem_cons_of_mem t hm)
    rw [extractDurationTokens_cons ht, ih hrest]

/-- The duration scan passes unchanged over leading tokens that are not "in". -/
theorem extractDurationTokens_append {lead ts : List String} (h : "in" ∉ lead) :
    extractDurationTokens (lead ++ ts) =
      (lead ++ (extractDurationTokens ts).1, (extractDurationTokens ts).2) := by
  induction lead with
  | nil => simp
  | cons t rest ih =>
    have ht : t ≠ "in" := fun he => h (he ▸ List.mem_cons_self t rest)
    have hrest : "in" ∉ rest := fun hm => h (List.mem_cons_of_mem t hm)
    rw [List.cons_append, extractDurationTokens_cons ht, ih hrest]
    simp

/-- A trailing "in" followed only by non-numeral place tokens is not a
duration phrase: the scan leaves it alone with duration zero. -/
theorem extractDurationTokens_in_place {q : List String} (hqin : "in" ∉ q)
    (hqnum : ∀ s ∈ q, tokenToNat? s = none) :
    extractDurationTokens ("in" :: q) = ("in" :: q, 0) := by
  match q with
  | [] => rfl
  | [a] =>
    rw [extractDurationTokens.eq_def]
    simp [extractDurationTokens_no_in hqin]
  | a :: b :: q2 =>
    have ha : tokenToNat? a = none := hqnum a (List.mem_cons_self a _)
    rw [extractDurationTokens_in_no_numeral ha, extractDurationTokens_no_in hqin]

/-- The location scan passes over leading tokens that are neither "in" nor
"at". -/
theorem extractLocationTokens_append {lead ts : List String}
    (hin : "in" ∉ lead) (hat : "at" ∉ lead) :
    extractLocationTokens (lead ++ ts) = extractLocationTokens ts := by
  induction lead with
  | nil => rfl
  | cons t rest ih =>
    have ht : ¬(t = "in" ∨ t = "at") := by
      rintro (rfl | rfl)
      · exact hin (List.mem_cons_self _ _)
      · exact hat (List.mem_cons_self _ _)
    have hin2 : "in" ∉ rest := fun hm => hin (List.mem_cons_of_mem t hm)
    have hat2 : "at" ∉ rest := fun hm => hat (List.mem_cons_of_mem t hm)
    rw [List.cons_append, extractLocationTokens]
    rw [if_neg (fun hc => ht hc.1), ih hin2 hat2]

/-! Theorems for the claims. -/

/-- Claim C8: applying the Time Computer's `compute` operation with the zero
duration returns the base date-time unchanged. -/
theorem compute_zero_duration (base : Nat) : compute base 0 = base := by
  simp [compute]

/-- Claim C10: the Mark I idle-time loop rewrites the faceplate only when the
idle-display setting is on, the display is idle, and the freshly formatted
time string differs from the last displayed string; an unchanged string leads
to no drawing call and an unchanged stored value; a rewrite draws exactly the
fresh string and stores it. -/
theorem display_idle_rewrites_only_on_change (w i : Bool) (s : String)
    (prev : Option String) :
    (some s = prev →
      display_idle w i s prev = { displayed_time := prev, drawnStrings := [] }) ∧
    (¬(w = true ∧ i = true) →
      display_idle w i s prev = { displayed_time := prev, drawnStrings := [] }) ∧
    (w = true → i = true → some s ≠ prev →
      display_idle w i s prev = { displayed_time := some s, drawnStrings := [s] }) ∧
    ((display_idle w i s prev).drawnStrings ≠ [] ↔
      w = true ∧ i = true ∧ some s ≠ prev) := by
  refine ⟨?_, ?_, ?_, ?_⟩
  · intro h
    simp [display_idle, h]
  · intro h
    cases w <;> cases i <;> simp_all [display_idle]
  · intro hw hi hne
    subst hw; subst hi
    simp [display_idle, hne]
  · cases w <;> cases i <;> by_cases hne : some s = prev <;>
      simp_all [display_idle]

/-- Claim C10 witness: a concrete idle rewrite. -/
theorem display_idle_rewrites_only_on_change_witness :
    (true = true ∧ true = true ∧ some "12:30" ≠ (none : Option String)) ∧
    display_idle true true "12:30" none =
      { displayed_time := some "12:30", drawnStrings := ["12:30"] } :=
  ⟨⟨rfl, rfl, by simp⟩,
    (display_idle_rewrites_only_on_change true true "12:30" none).2.2.1 rfl rfl (by simp)⟩

/-- Claim C7: building a current-time response from the empty utterance never
raises and always takes the no-location branch — no location is extracted, the
result does not consult the geolocation oracle or the timezone clock, and the
no-location current-time template is used; this is the input the background
TTS pre-cache task builds. -/
theorem build_current_time_empty_utterance (env env2 : Env)
    (h : env2.nowLocal = env.nowLocal) :
    build_current_time_response env [] =
      BuildResult.ok
        { date_time := some env.nowLocal, dialog_name := some "current-time",
          dialog_data := [("time", formatTimeOfDay env.nowLocal)],
          requested_location := none, geolocation := none } ∧
    build_current_time_response env2 [] = build_current_time_response env [] := by
  constructor
  · rfl
  · simp [build_current_time_response, extractLocationTokens, h]

/-- Claim C7 witness: the conclusion at two concrete environments with equal
local clocks but different geolocation oracles. -/
theorem build_current_time_empty_utterance_witness :
    envAllGeo.nowLocal = envNoGeo.nowLocal ∧
    build_current_time_response envNoGeo [] =
      BuildResult.ok
        { date_time := some envNoGeo.nowLocal, dialog_name := some "current-time",
          dialog_data := [("time", formatTimeOfDay envNoGeo.nowLocal)],
          requested_location := none, geolocation := none } ∧
    build_current_time_response envAllGeo [] = build_current_time_response envNoGeo [] :=
  ⟨rfl, (build_current_time_empty_utterance envNoGeo envAllGeo rfl).1,
    (build_current_time_empty_utterance envNoGeo envAllGeo rfl).2⟩

/-- Claim C1 counterexample: the future-framed utterance
"what time will it be in wakanda" contains no parseable duration phrase, yet
when its location cannot be resolved the future-time build raises
location-not-found — the request is treated as an error and the handler speaks
the location-not-found dialog instead of falling back to the current-time
protocol. -/
theorem future_time_no_duration_error_counterexample :
    extractDurationTokens ["what", "time", "will", "it", "be", "in", "wakanda"] =
      (["what", "time", "will", "it", "be", "in", "wakanda"], 0) ∧
    build_future_time_response envNoGeo
        ["what", "time", "will", "it", "be", "in", "wakanda"] =
      BuildResult.locationNotFound
        { Response.fresh with requested_location := some ["wakanda"] } ∧
    handle_future_time ctxNoGeo ["what", "time", "will", "it", "be", "in", "wakanda"] =
      [Effect.speak (some "location-not-found") [("location", "wakanda")] none] :=
  ⟨rfl, rfl, rfl⟩

/-- Claim C1 (amended): for every future-time request whose utterance contains
no parseable duration phrase and whose build raises no location-not-found
error, the built response's date_time is unset — the missing duration itself
is not an error — and the handler falls back to the current-time protocol on
the same request. -/
theorem future_time_no_duration_falls_back (ctx : Ctx) (u : List String)
    (r : Response) (hdur : extractDurationTokens u = (u, 0))
    (hok : build_future_time_response ctx.env u = BuildResult.ok r) :
    r.date_time = none ∧
    handle_future_time ctx u = handle_current_time ctx u := by
  have hdt : r.date_time = none := by
    cases hl : extractLocationTokens u with
    | none =>
      simp only [build_future_time_response, hdur, hl, if_true, eq_self_iff_true] at hok
      injection hok with h2
      rw [← h2]
      rfl
    | some loc =>
      cases hg : ctx.env.resolveGeo loc with
      | none =>
        simp only [build_future_time_response, hdur, hl, hg] at hok
        exact absurd hok (by simp)
      | some geo =>
        simp only [build_future_time_response, hdur, hl, hg, if_true,
          eq_self_iff_true] at hok
        injection hok with h2
        rw [← h2]
        rfl
  refine ⟨hdt, ?_⟩
  simp only [handle_future_time, hok, hdt]

/-- Claim C1 witness: the amended claim at the concrete duration-free
utterance "what time will it be" for which the build completes. -/
theorem future_time_no_duration_falls_back_witness :
    extractDurationTokens ["what", "time", "will", "it", "be"] =
      (["what", "time", "will", "it", "be"], 0) ∧
    build_future_time_response envNoGeo ["what", "time", "will", "it", "be"] =
      BuildResult.ok Response.fresh ∧
    Response.fresh.date_time = none ∧
    handle_future_time ctxNoGeo ["what", "time", "will", "it", "be"] =
      handle_current_time ctxNoGeo ["what", "time", "will", "it", "be"] := by
  refine ⟨rfl, rfl, ?_, ?_⟩
  · exact (future_time_no_duration_falls_back ctxNoGeo
      ["what", "time", "will", "it", "be"] Response.fresh rfl rfl).1
  · exact (future_time_no_duration_falls_back ctxNoGeo
      ["what", "time", "will", "it", "be"] Response.fresh rfl rfl).2

/-- Claim C2: in both the current-time and the future-time entry, when a
location phrase was extracted but geolocation resolution fails, the
location-not-found error escapes the response builder carrying the response
with the raw requested location already recorded (it was stored before
resolution was attempted), and the handler speaks exactly the
location-not-found dialog with that raw text as the location substitution —
no raw error and no silence. -/
theorem location_not_found_dialog (ctx : Ctx) (u l : List String)
    (hres : ctx.env.resolveGeo l = none) :
    (extractLocationTokens u = some l →
      build_current_time_response ctx.env u =
        BuildResult.locationNotFound
          { Response.fresh with requested_location := some l } ∧
      handle_current_time ctx u =
        [Effect.speak (some "location-not-found")
          [("location", joinTokens l)] none]) ∧
    (extractLocationTokens (extractDurationTokens u).1 = some l →
      build_future_time_response ctx.env u =
        BuildResult.locationNotFound
          { Response.fresh with requested_location := some l } ∧
      handle_future_time ctx u =
        [Effect.speak (some "location-not-found")
          [("location", joinTokens l)] none]) := by
  constructor
  · intro hl
    have hb : build_current_time_response ctx.env u =
        BuildResult.locationNotFound
          { Response.fresh with requested_location := some l } := by
      simp only [build_current_time_response, hl, hres]
    refine ⟨hb, ?_⟩
    simp [handle_current_time, hb, handle_location_not_found]
  · intro hl
    have hb : build_future_time_response ctx.env u =
        BuildResult.locationNotFound
          { Response.fresh with requested_location := some l } := by
      simp only [build_future_time_response, hl, hres]
    refine ⟨hb, ?_⟩
    simp [handle_future_time, hb, handle_location_not_found]

/-- Claim C2 witness: a concrete unresolvable location in a current-time
request yields exactly the location-not-found dialog naming it. -/
theorem location_not_found_dialog_witness :
    ctxNoGeo.env.resolveGeo ["wakanda"] = none ∧
    extractLocationTokens ["what", "time", "is", "it", "in", "wakanda"] =
      some ["wakanda"] ∧
    handle_current_time ctxNoGeo ["what", "time", "is", "it", "in", "wakanda"] =
      [Effect.speak (some "location-not-found")
        [("location", joinTokens ["wakanda"])] none] :=
  ⟨rfl, rfl,
    ((location_not_found_dialog ctxNoGeo
      ["what", "time", "is", "it", "in", "wakanda"] ["wakanda"] rfl).1 rfl).2⟩

/-- Claim C3: for every utterance made of non-marker lead tokens, the duration
phrase "in `<numeral>` `<unit>`" and a location phrase "in `<place>`" following
it, the Duration Extractor removes exactly the duration span, the Location
Extractor applied to the stripped remainder captures exactly the place — while
applied to the raw utterance it captures the duration words as a bogus place —
and the future-time build, which runs the Duration Extractor before the
Location Extractor, records exactly the true place as the requested
location. -/
theorem location_extraction_needs_duration_stripping
    (lead q : List String) (numTok unitTok : String) (k m : Nat)
    (hlin : "in" ∉ lead) (hlat : "at" ∉ lead)
    (hn : tokenToNat? numTok = some k) (hu : unitMicros unitTok = some m)
    (hq : q ≠ []) (hqin : "in" ∉ q) (hqnum : ∀ s ∈ q, tokenToNat? s = none) :
    extractDurationTokens (lead ++ "in" :: numTok :: unitTok :: "in" :: q) =
      (lead ++ "in" :: q, k * m) ∧
    extractLocationTokens (lead ++ "in" :: q) = some q ∧
    extractLocationTokens (lead ++ "in" :: numTok :: unitTok :: "in" :: q) =
      some (numTok :: unitTok :: "in" :: q) ∧
    numTok :: unitTok :: "in" :: q ≠ q ∧
    ∀ env : Env,
      ((build_future_time_response env
          (lead ++ "in" :: numTok :: unitTok :: "in" :: q)).response).requested_location
        = some q := by
  have hdur : extractDurationTokens (lead ++ "in" :: numTok :: unitTok :: "in" :: q) =
      (lead ++ "in" :: q, k * m) := by
    rw [extractDurationTokens_append hlin, extractDurationTokens_window hn hu,
      extractDurationTokens_in_place hqin hqnum]
    simp
  have hloc1 : extractLocationTokens (lead ++ "in" :: q) = some q := by
    rw [extractLocationTokens_append hlin hlat, extractLocationTokens]
    simp [hq]
  have hloc2 : extractLocationTokens (lead ++ "in" :: numTok :: unitTok :: "in" :: q) =
      some (numTok :: unitTok :: "in" :: q) := by
    rw [extractLocationTokens_append hlin hlat, extractLocationTokens]
    simp
  refine ⟨hdur, hloc1, hloc2, ?_, ?_⟩
  · intro he
    have hlen := congrArg List.length he
    simp at hlen
    omega
  · intro env
    simp only [build_future_time_response, hdur, hloc1]
    cases hg : env.resolveGeo q with
    | none => simp [hg, BuildResult.response]
    | some geo =>
      by_cases hz : k * m = 0 <;> simp [hg, hz, BuildResult.response]

/-- Claim C3 witness: the concrete utterance
"what time will it be in 5 hours in tokyo". -/
theorem location_extraction_needs_duration_stripping_witness :
    tokenToNat? "5" = some 5 ∧
    unitMicros "hours" = some 3600000000 ∧
    extractDurationTokens
        ["what", "time", "will", "it", "be", "in", "5", "hours", "in", "tokyo"] =
      (["what", "time", "will", "it", "be", "in", "tokyo"], 18000000000) ∧
    extractLocationTokens ["what", "time", "will", "it", "be", "in", "tokyo"] =
      some ["tokyo"] ∧
    extractLocationTokens
        ["what", "time", "will", "it", "be", "in", "5", "hours", "in", "tokyo"] =
      some ["5", "hours", "in", "tokyo"] ∧
    ((build_future_time_response envAllGeo
        ["what", "time", "will", "it", "be", "in", "5", "hours", "in",
          "tokyo"]).response).requested_location = some ["tokyo"] := by
  have h := location_extraction_needs_duration_stripping
    ["what", "time", "will", "it", "be"] ["tokyo"] "5" "hours" 5 3600000000
    (by decide) (by decide) (by decide) rfl (by decide) (by decide) (by decide)
  exact ⟨rfl, rfl, h.1, h.2.1, h.2.2.1, h.2.2.2.2 envAllGeo⟩

/-- Cache keys of spoken dialogs distribute over effect concatenation. -/
theorem speakCacheKeys_append (a b : List Effect) :
    speakCacheKeys (a ++ b) = speakCacheKeys a ++ speakCacheKeys b := by
  simp [speakCacheKeys]

/-- A `_respond` call speaks exactly once, with the cache key it was given. -/
theorem speakCacheKeys_respond (ctx : Ctx) (r : Response) (ck : Option String) :
    speakCacheKeys (respond ctx r ck) = [ck] := by
  rw [respond]
  by_cases hp : ctx.platform = some MARK_ONE <;>
    by_cases hg : ctx.guiConnected <;>
    simp [hp, hg, speakCacheKeys]

/-- Claim C6: a live current-time answer is spoken with the stable
current-time cache key exactly when no location was requested in the
utterance; a location-qualified (or location-failing) request is spoken with
no cache key; and whatever the background pre-cache task writes is stored
under the stable key and carries the no-location current-time template. -/
theorem current_time_cache_key_iff (ctx : Ctx) (u : List String) :
    (extractLocationTokens u = none →
      speakCacheKeys (handle_current_time ctx u) =
        [some (currentTimeCacheKey ctx.skillId)]) ∧
    (extractLocationTokens u ≠ none →
      speakCacheKeys (handle_current_time ctx u) = [none]) ∧
    (∀ (env : Env) (skillId : String) (sched : EventSchedule) (now : PyDateTime)
        (cacheFails : Bool) (d : Option String × List (String × String) × String),
      (cache_current_time_tts env skillId sched now cacheFails).cachedDialog = some d →
      d.2.2 = currentTimeCacheKey skillId ∧ d.1 = some "current-time") := by
  refine ⟨?_, ?_, ?_⟩
  · intro hext
    simp only [handle_current_time, build_current_time_response, hext]
    rw [speakCacheKeys_append]
    simp [speakCacheKeys_respond, truthyLocation, speakCacheKeys]
    exact speakCacheKeys_respond ctx _ _
  · intro hext
    obtain ⟨l, hl⟩ := Option.ne_none_iff_exists'.mp hext
    have hne : l ≠ [] := extractLocationTokens_ne_nil hl
    obtain ⟨a, l2, rfl⟩ : ∃ a l2, l = a :: l2 := by
      cases l with
      | nil => exact absurd rfl hne
      | cons a l2 => exact ⟨a, l2, rfl⟩
    cases hg : ctx.env.resolveGeo (a :: l2) with
    | none =>
      simp only [handle_current_time, build_current_time_response, hl, hg]
      simp [handle_location_not_found, speakCacheKeys]
    | some geo =>
      simp only [handle_current_time, build_current_time_response, hl, hg]
      rw [speakCacheKeys_append]
      simp [speakCacheKeys_respond, truthyLocation, speakCacheKeys]
      exact speakCacheKeys_respond ctx _ _
  · intro env skillId sched now cacheFails d hd
    cases cacheFails with
    | true => simp [cache_current_time_tts] at hd
    | false =>
      simp [cache_current_time_tts, build_current_time_response,
        extractLocationTokens] at hd
      rw [← hd]
      exact ⟨rfl, rfl⟩

/-- Claim C6 witness: the no-location request carries the stable key; a
location-qualified request is spoken without a key. -/
theorem current_time_cache_key_iff_witness :
    extractLocationTokens ([] : List String) = none ∧
    speakCacheKeys (handle_current_time ctxNoGeo []) =
      [some (currentTimeCacheKey ctxNoGeo.skillId)] ∧
    extractLocationTokens ["time", "in", "wakanda"] ≠ none ∧
    speakCacheKeys (handle_current_time ctxNoGeo ["time", "in", "wakanda"]) =
      [none] := by
  refine ⟨rfl, (current_time_cache_key_iff ctxNoGeo []).1 rfl, ?_, ?_⟩
  · decide
  · exact (current_time_cache_key_iff ctxNoGeo
      ["time", "in", "wakanda"]).2.1 (by decide)

/-- Splitting always yields at least one part. -/
theorem pySplit_ne_nil (sep : Char) (l : List Char) : pySplit sep l ≠ [] := by
  cases l with
  | nil => simp [pySplit]
  | cons c rest =>
    rw [pySplit]
    cases h : pySplit sep rest with
    | nil => simp
    | cons p ps => by_cases hc : c = sep <;> simp [hc]

/-- Splitting at a one-character separator yields one part more than the
number of separator occurrences. -/
theorem pySplit_length (sep : Char) (l : List Char) :
    (pySplit sep l).length = l.count sep + 1 := by
  induction l with
  | nil => simp [pySplit]
  | cons c rest ih =>
    rw [pySplit]
    cases h : pySplit sep rest with
    | nil => exact absurd h (pySplit_ne_nil sep rest)
    | cons p ps =>
      rw [h] at ih
      by_cases hc : c = sep
      · subst hc
        simp [List.count_cons] at ih ⊢
        omega
      · simp [List.count_cons, hc, Ne.symm hc] at ih ⊢
        omega

/-- Claim C9: on the Mark II graphical path the handler destructures the
formatted display time at ":" into hour and minute, so the display succeeds
exactly when the string contains exactly one colon and raises otherwise; in
the success case the location field is populated exactly when the response
carries a resolved geolocation. -/
theorem display_gui_mark_two_colon (s : List Char) (geo : Option Geolocation)
    (loc : String) :
    (s.count ':' = 1 →
      ∃ h m, pySplit ':' s = [h, m] ∧
        display_gui (some MARK_TWO) s geo loc =
          some (GuiPage.markTwo h m (Option.map (fun _ => loc) geo))) ∧
    (s.count ':' ≠ 1 → display_gui (some MARK_TWO) s geo loc = none) := by
  constructor
  · intro hc
    have hlen : (pySplit ':' s).length = 2 := by rw [pySplit_length, hc]
    obtain ⟨h, m, hpq⟩ : ∃ h m, pySplit ':' s = [h, m] := by
      match hps : pySplit ':' s with
      | [] => rw [hps] at hlen; simp at hlen
      | [a] => rw [hps] at hlen; simp at hlen
      | [a, b] => exact ⟨a, b, rfl⟩
      | a :: b :: c :: r => rw [hps] at hlen; simp at hlen
    refine ⟨h, m, hpq, ?_⟩
    simp [display_gui, hpq]
  · intro hc
    have hlen : (pySplit ':' s).length ≠ 2 := by rw [pySplit_length]; omega
    simp only [display_gui, reduceIte]
    match hps : pySplit ':' s with
    | [] => simp
    | [a] => simp
    | [a, b] => rw [hps] at hlen; simp at hlen
    | a :: b :: c :: r => simp

/-- Claim C9 witness: "12:30" splits into hour and minute (location populated
with a present geolocation); "1230" with no colon raises. -/
theorem display_gui_mark_two_colon_witness :
    "12:30".data.count ':' = 1 ∧
    "1230".data.count ':' ≠ 1 ∧
    display_gui (some MARK_TWO) "12:30".data
        (some { city := "Tokyo", region := none, country := none,
                timezone := "Asia/Tokyo" }) "Tokyo" =
      some (GuiPage.markTwo ['1', '2'] ['3', '0'] (some "Tokyo")) ∧
    display_gui (some MARK_TWO) "1230".data none "x" = none := by
  refine ⟨by decide, by decide, ?_, ?_⟩
  · obtain ⟨h, m, hpq, hd⟩ := (display_gui_mark_two_colon "12:30".data
      (some { city := "Tokyo", region := none, country := none,
              timezone := "Asia/Tokyo" }) "Tokyo").1 (by decide)
    have he : pySplit ':' ("12:30".data) = [['1', '2'], ['3', '0']] := rfl
    rw [hpq] at he
    injection he with e1 e2
    injection e2 with e2 e3
    subst e1
    subst e2
    exact hd
  · exact (display_gui_mark_two_colon "1230".data none "x").2 (by decide)

/-! Calendar lemmas for the minute-boundary scheduling of the TTS cache
task. -/

/-- Cumulative month lengths advance by exactly the month being crossed. -/
theorem daysBeforeMonth_succ (y m : Nat) (h1 : 1 ≤ m) (h2 : m ≤ 11) :
    daysBeforeMonth y (m + 1) = daysBeforeMonth y m + daysInMonth y m := by
  interval_cases m <;>
    cases hL : isLeapYear y <;>
    simp [daysBeforeMonth, daysBeforeMonthCommon, daysInMonth, hL]

/-- Cumulative year lengths advance by 365 days plus the leap day of the year
being crossed. -/
theorem daysBeforeYear_succ (z : Nat) :
    daysBeforeYear (z + 2) =
      daysBeforeYear (z + 1) + 365 + (if isLeapYear (z + 1) then 1 else 0) := by
  have e4 : (z + 1) / 4 = z / 4 + if 4 ∣ (z + 1) then 1 else 0 := Nat.succ_div z 4
  have e100 : (z + 1) / 100 = z / 100 + if 100 ∣ (z + 1) then 1 else 0 :=
    Nat.succ_div z 100
  have e400 : (z + 1) / 400 = z / 400 + if 400 ∣ (z + 1) then 1 else 0 :=
    Nat.succ_div z 400
  simp only [daysBeforeYear, Nat.add_sub_cancel, show z + 2 - 1 = z + 1 by omega]
  cases hL : isLeapYear (z + 1) <;>
    simp only [isLeapYear, Bool.or_eq_true, Bool.and_eq_true, beq_iff_eq,
      bne_iff_ne, ne_eq, Bool.or_eq_false_iff, Bool.and_eq_false_iff,
      Bool.not_eq_true, decide_eq_true_eq, decide_eq_false_iff_not,
      beq_eq_false_iff_ne, bne_eq_false_iff_eq,
      not_not] at hL <;>
    simp only [Bool.false_eq_true, if_false, if_true] <;>
    by_cases d4 : 4 ∣ (z + 1) <;> by_cases d100 : 100 ∣ (z + 1) <;>
      by_cases d400 : 400 ∣ (z + 1) <;>
      simp only [d4, d100, d400, if_true, if_false, eq_self_iff_true] at e4 e100 e400 <;>
      omega

/-- Adding one minute to a second-aligned valid date-time advances its
time-line value by exactly one minute, across hour, day, month and year
boundaries. -/
theorem toMicros_addOneMinute (t : PyDateTime) (hv : t.Valid) :
    t.addOneMinute.toMicros = t.toMicros + 60000000 := by
  obtain ⟨hy, hm1, hm2, hd1, hd2, hh, hmin, _, _⟩ := hv
  rw [PyDateTime.addOneMinute]
  by_cases c1 : t.minute + 1 < 60
  · rw [if_pos c1]
    simp only [PyDateTime.toMicros, PyDateTime.toDays]
    omega
  · rw [if_neg c1]
    by_cases c2 : t.hour + 1 < 24
    · rw [if_pos c2]
      simp only [PyDateTime.toMicros, PyDateTime.toDays]
      omega
    · rw [if_neg c2]
      by_cases c3 : t.day + 1 ≤ daysInMonth t.year t.month
      · rw [if_pos c3]
        simp only [PyDateTime.toMicros, PyDateTime.toDays]
        omega
      · rw [if_neg c3]
        by_cases c4 : t.month + 1 ≤ 12
        · rw [if_pos c4]
          have hmm : daysBeforeMonth t.year (t.month + 1) =
              daysBeforeMonth t.year t.month + daysInMonth t.year t.month :=
            daysBeforeMonth_succ t.year t.month hm1 (by omega)
          simp only [PyDateTime.toMicros, PyDateTime.toDays, hmm]
          omega
        · rw [if_neg c4]
          have hm12 : t.month = 12 := by omega
          obtain ⟨z, hz⟩ : ∃ z, t.year = z + 1 := ⟨t.year - 1, by omega⟩
          have hy2 : daysBeforeYear (z + 2) =
              daysBeforeYear (z + 1) + 365 + (if isLeapYear (z + 1) then 1 else 0) :=
            daysBeforeYear_succ z
          have hdim : daysInMonth t.year 12 = 31 := by simp [daysInMonth]
          have hday : t.day = 31 := by
            rw [hm12] at hd2 c3
            omega
          simp only [PyDateTime.toMicros, PyDateTime.toDays, hm12, hday, hz]
          simp only [daysBeforeMonth, daysBeforeMonthCommon,
            show z + 1 + 1 = z + 2 from rfl]
          cases hL : isLeapYear (z + 1) <;> simp [hL] at hy2 ⊢ <;> omega

/-- Truncating the sub-minute fields realizes time-line truncation to the
minute. -/
theorem toMicros_truncateToMinute (t : PyDateTime) (hsec : t.second < 60)
    (hmic : t.microsecond < 1000000) :
    t.truncateToMinute.toMicros = t.toMicros / 60000000 * 60000000 := by
  simp only [PyDateTime.truncateToMinute, PyDateTime.toMicros, PyDateTime.toDays]
  generalize daysBeforeYear t.year + daysBeforeMonth t.year t.month + (t.day - 1) = D
  omega

/-- The moment `_cache_current_time_tts` schedules is, on the time line,
the current time truncated to whole minutes plus one minute. -/
theorem toMicros_nextMinute (t : PyDateTime) (hv : t.Valid) :
    (nextMinute t).toMicros = t.toMicros / 60000000 * 60000000 + 60000000 := by
  obtain ⟨hy, hm1, hm2, hd1, hd2, hh, hmin, hsec, hmic⟩ := hv
  have hv2 : t.truncateToMinute.Valid := by
    refine ⟨hy, hm1, hm2, hd1, hd2, hh, hmin,
      by simp [PyDateTime.truncateToMinute],
      by simp [PyDateTime.truncateToMinute]⟩
  rw [nextMinute, toMicros_addOneMinute t.truncateToMinute hv2,
    toMicros_truncateToMinute t hsec hmic]

/-- After cancelling every pending event of a name, none with that name is
left. -/
theorem filter_cancel (sched : EventSchedule) (name : String) :
    (cancelScheduledEvent sched name).filter (fun e => e.1 == name) = [] := by
  simp only [cancelScheduledEvent]
  induction sched with
  | nil => rfl
  | cons e rest ih =>
    by_cases he : e.1 = name <;> simp [List.filter_cons, he, ih]

/-- The schedule produced by one `_cache_current_time_tts` invocation is the
cancel-then-reschedule of the incoming schedule, for success and failure
alike (both happen before the fallible computation). -/
theorem cache_tts_schedule_eq (env : Env) (skillId : String)
    (sched : EventSchedule) (now : PyDateTime) (cacheFails : Bool) :
    (cache_current_time_tts env skillId sched now cacheFails).schedule =
      scheduleEvent (cancelScheduledEvent sched "CacheTTS") "CacheTTS"
        (nextMinute now).toMicros := by
  cases cacheFails <;>
    simp [cache_current_time_tts, build_current_time_response, extractLocationTokens]

/-- Claim C4: the background TTS pre-cache task cancels the pending recompute
and schedules the next one before the response computation that can fail, so
after any single invocation — including one whose response building or caching
raises — exactly one CacheTTS recompute remains scheduled, at a strictly
future minute; a failure is logged and no exception reaches the host. -/
theorem cache_tts_reschedules_before_failure (env : Env) (skillId : String)
    (sched : EventSchedule) (now : PyDateTime) (cacheFails : Bool)
    (hv : now.Valid) :
    (cache_current_time_tts env skillId sched now cacheFails).schedule.filter
        (fun e => e.1 == "CacheTTS") =
      [("CacheTTS", (nextMinute now).toMicros)] ∧
    now.toMicros < (nextMinute now).toMicros ∧
    (cache_current_time_tts env skillId sched now cacheFails).raised = false ∧
    (cacheFails = true →
      (cache_current_time_tts env skillId sched now cacheFails).loggedError = true) ∧
    (cache_current_time_tts env skillId sched now true).schedule =
      (cache_current_time_tts env skillId sched now false).schedule := by
  refine ⟨?_, ?_, ?_, ?_, ?_⟩
  · rw [cache_tts_schedule_eq]
    simp [scheduleEvent, List.filter_append, filter_cancel]
  · rw [toMicros_nextMinute now hv]
    omega
  · cases cacheFails <;>
      simp [cache_current_time_tts, build_current_time_response,
        extractLocationTokens]
  · intro h
    subst h
    simp [cache_current_time_tts]
  · rw [cache_tts_schedule_eq, cache_tts_schedule_eq]

/-- Claim C4 witness: an invocation with a failing recompute at a concrete
moment, with stale events pending. -/
theorem cache_tts_reschedules_before_failure_witness :
    (PyDateTime.mk 2026 10 12 23 59 59 999999).Valid ∧
    (cache_current_time_tts envNoGeo "time.mycroftai"
        [("CacheTTS", 5), ("Other", 7)]
        (PyDateTime.mk 2026 10 12 23 59 59 999999) true).schedule.filter
        (fun e => e.1 == "CacheTTS") =
      [("CacheTTS",
        (nextMinute (PyDateTime.mk 2026 10 12 23 59 59 999999)).toMicros)] ∧
    (cache_current_time_tts envNoGeo "time.mycroftai"
        [("CacheTTS", 5), ("Other", 7)]
        (PyDateTime.mk 2026 10 12 23 59 59 999999) true).raised = false :=
  ⟨by unfold PyDateTime.Valid; decide,
   (cache_tts_reschedules_before_failure envNoGeo "time.mycroftai"
     [("CacheTTS", 5), ("Other", 7)]
     (PyDateTime.mk 2026 10 12 23 59 59 999999) true
     (by unfold PyDateTime.Valid; decide)).1,
   (cache_tts_reschedules_before_failure envNoGeo "time.mycroftai"
     [("CacheTTS", 5), ("Other", 7)]
     (PyDateTime.mk 2026 10 12 23 59 59 999999) true
     (by unfold PyDateTime.Valid; decide)).2.2.1⟩

/-- Claim C5: each invocation of the background pre-cache task schedules its
next run exactly at the next minute boundary — on the time line, the current
time truncated to whole minutes (seconds and smaller dropped) plus one
minute. -/
theorem cache_tts_minute_boundary (env : Env) (skillId : String)
    (sched : EventSchedule) (now : PyDateTime) (cacheFails : Bool)
    (hv : now.Valid) :
    (cache_current_time_tts env skillId sched now cacheFails).schedule.filter
        (fun e => e.1 == "CacheTTS") =
      [("CacheTTS", now.toMicros / 60000000 * 60000000 + 60000000)] := by
  rw [cache_tts_schedule_eq]
  simp [scheduleEvent, List.filter_append, filter_cancel, toMicros_nextMinute now hv]

/-- Claim C5 witness: the concrete moment 2024-02-28 23:59:30.5 is rescheduled
exactly at midnight of the leap day, 2024-02-29T00:00. -/
theorem cache_tts_minute_boundary_witness :
    (PyDateTime.mk 2024 2 28 23 59 30 500000).Valid ∧
    (cache_current_time_tts envNoGeo "time.mycroftai" []
        (PyDateTime.mk 2024 2 28 23 59 30 500000) false).schedule.filter
        (fun e => e.1 == "CacheTTS") =
      [("CacheTTS",
        (PyDateTime.mk 2024 2 28 23 59 30 500000).toMicros / 60000000 * 60000000
          + 60000000)] ∧
    nextMinute (PyDateTime.mk 2024 2 28 23 59 30 500000) =
      PyDateTime.mk 2024 2 29 0 0 0 0 :=
  ⟨by unfold PyDateTime.Valid; decide,
   cache_tts_minute_boundary envNoGeo "time.mycroftai" []
     (PyDateTime.mk 2024 2 28 23 59 30 500000) false
     (by unfold PyDateTime.Valid; decide),
   by decide⟩

end TimeSkill
